import Mathlib

/-!
Verification development for the finops-automation-system repository.

Each Python lambda that the claims touch is shallowly embedded here:
pure Lean functions over explicit state, with external AWS calls
modelled by an environment of call outcomes and an explicit trace of
the calls that were issued.  Machine floats of the source are embedded
as rationals; Python exceptions become Except values.
-/

namespace CleanupExecutor

/-- External AWS calls that the cleanup executor can issue
(src/lambda/cleanup-executor/lambda_function.py). -/
inductive ExtCall where
  | stopInstances (instanceId : String)
  | describeInstances (instanceId : String)
  | createSnapshot (volumeId : String)
  | waitSnapshotCompleted (snapshotId : String)
  | terminateInstances (instanceId : String)
  | deleteVolume (volumeId : String)
  | releaseAddress (allocationId : String)
  | deleteSnapshot (snapshotId : String)
  | deregisterImage (amiId : String)
  | deleteLoadBalancer (lbArn : String)
  deriving DecidableEq, Repr

/-- A call mutates external state unless it is a read (describe_instances)
or a wait on a snapshot completing. -/
def ExtCall.isMutating : ExtCall → Bool
  | .describeInstances _ => false
  | .waitSnapshotCompleted _ => false
  | _ => true

/-- The result dict built at the top of execute_cleanup_action and
threaded through every per-action function. -/
structure ActionResult where
  action_id : String
  resource_id : String
  resource_type : String
  action_type : String
  success : Bool
  skipped : Bool
  message : String
  savings : ℚ
  deriving DecidableEq, Repr

/-- Outcomes of the external AWS calls: ok data on success, the raised
error text on failure.  describeOutcome returns the EBS volume ids of
the BlockDeviceMappings of the instance; createSnapshotOutcome returns
the new SnapshotId for a volume. -/
structure AwsEnv where
  stopOutcome : Except String Unit
  describeOutcome : Except String (List String)
  createSnapshotOutcome : String → Except String String
  waitOutcome : String → Except String Unit
  terminateOutcome : Except String Unit
  deleteVolumeOutcome : Except String Unit
  releaseOutcome : Except String Unit
  deleteSnapshotOutcome : Except String Unit
  deregisterOutcome : Except String Unit
  deleteLbOutcome : Except String Unit

/-- Embedding of stop_ec2_instance (lines 155-170): returns the updated
result dict together with the trace of external calls issued. -/
def stop_ec2_instance (dryRun : Bool) (env : AwsEnv) (instanceId : String)
    (result : ActionResult) : ActionResult × List ExtCall :=
  if dryRun then
    ({ result with
       success := true
       message := "[DRY RUN] Would stop instance " ++ instanceId }, [])
  else
    match env.stopOutcome with
    | .ok _ =>
        ({ result with
           success := true
           message := "Successfully stopped instance " ++ instanceId },
         [.stopInstances instanceId])
    | .error e =>
        ({ result with message := "Failed to stop instance: " ++ e },
         [.stopInstances instanceId])

/-- Embedding of the snapshot loop inside terminate_ec2_instance
(lines 184-190): one create_snapshot call per attached EBS volume, with
no wait on completion; a raised error aborts the loop. -/
def snapshotAttachedVolumes (env : AwsEnv) :
    List String → Except String Unit × List ExtCall
  | [] => (.ok (), [])
  | v :: rest =>
    match env.createSnapshotOutcome v with
    | .error e => (.error e, [.createSnapshot v])
    | .ok _ =>
        let (r, t) := snapshotAttachedVolumes env rest
        (r, .createSnapshot v :: t)

/-- Embedding of terminate_ec2_instance (lines 172-200): in live mode it
describes the instance, issues create_snapshot per attached volume and
then terminates, without ever waiting for snapshot completion. -/
def terminate_ec2_instance (dryRun : Bool) (env : AwsEnv) (instanceId : String)
    (result : ActionResult) : ActionResult × List ExtCall :=
  if dryRun then
    ({ result with
       success := true
       message := "[DRY RUN] Would terminate instance " ++ instanceId }, [])
  else
    match env.describeOutcome with
    | .error e =>
        ({ result with message := "Failed to terminate instance: " ++ e },
         [.describeInstances instanceId])
    | .ok volumeIds =>
        match snapshotAttachedVolumes env volumeIds with
        | (.error e, t) =>
            ({ result with message := "Failed to terminate instance: " ++ e },
             .describeInstances instanceId :: t)
        | (.ok _, t) =>
            match env.terminateOutcome with
            | .ok _ =>
                ({ result with
                   success := true
                   message := "Successfully terminated instance " ++ instanceId },
                 .describeInstances instanceId :: t ++ [.terminateInstances instanceId])
            | .error e =>
                ({ result with message := "Failed to terminate instance: " ++ e },
                 .describeInstances instanceId :: t ++ [.terminateInstances instanceId])

/-- Embedding of snapshot_and_delete_volume (lines 202-230): in live mode
it creates a snapshot, waits for it to complete, and only then deletes
the volume; a raised error anywhere aborts the rest. -/
def snapshot_and_delete_volume (dryRun : Bool) (env : AwsEnv) (volumeId : String)
    (result : ActionResult) : ActionResult × List ExtCall :=
  if dryRun then
    ({ result with
       success := true
       message := "[DRY RUN] Would snapshot and delete volume " ++ volumeId }, [])
  else
    match env.createSnapshotOutcome volumeId with
    | .error e =>
        ({ result with message := "Failed to snapshot/delete volume: " ++ e },
         [.createSnapshot volumeId])
    | .ok snapshotId =>
        match env.waitOutcome snapshotId with
        | .error e =>
            ({ result with message := "Failed to snapshot/delete volume: " ++ e },
             [.createSnapshot volumeId, .waitSnapshotCompleted snapshotId])
        | .ok _ =>
            match env.deleteVolumeOutcome with
            | .ok _ =>
                ({ result with
                   success := true
                   message := "Snapshotted (" ++ snapshotId ++ ") and deleted volume " ++ volumeId },
                 [.createSnapshot volumeId, .waitSnapshotCompleted snapshotId,
                  .deleteVolume volumeId])
            | .error e =>
                ({ result with message := "Failed to snapshot/delete volume: " ++ e },
                 [.createSnapshot volumeId, .waitSnapshotCompleted snapshotId,
                  .deleteVolume volumeId])

/-- Embedding of delete_volume (lines 232-247). -/
def delete_volume (dryRun : Bool) (env : AwsEnv) (volumeId : String)
    (result : ActionResult) : ActionResult × List ExtCall :=
  if dryRun then
    ({ result with
       success := true
       message := "[DRY RUN] Would delete volume " ++ volumeId }, [])
  else
    match env.deleteVolumeOutcome with
    | .ok _ =>
        ({ result with
           success := true
           message := "Successfully deleted volume " ++ volumeId },
         [.deleteVolume volumeId])
    | .error e =>
        ({ result with message := "Failed to delete volume: " ++ e },
         [.deleteVolume volumeId])

/-- Embedding of release_elastic_ip (lines 249-264). -/
def release_elastic_ip (dryRun : Bool) (env : AwsEnv) (allocationId : String)
    (result : ActionResult) : ActionResult × List ExtCall :=
  if dryRun then
    ({ result with
       success := true
       message := "[DRY RUN] Would release Elastic IP " ++ allocationId }, [])
  else
    match env.releaseOutcome with
    | .ok _ =>
        ({ result with
           success := true
           message := "Successfully released Elastic IP " ++ allocationId },
         [.releaseAddress allocationId])
    | .error e =>
        ({ result with message := "Failed to release Elastic IP: " ++ e },
         [.releaseAddress allocationId])

/-- Embedding of delete_snapshot (lines 266-281). -/
def delete_snapshot (dryRun : Bool) (env : AwsEnv) (snapshotId : String)
    (result : ActionResult) : ActionResult × List ExtCall :=
  if dryRun then
    ({ result with
       success := true
       message := "[DRY RUN] Would delete snapshot " ++ snapshotId }, [])
  else
    match env.deleteSnapshotOutcome with
    | .ok _ =>
        ({ result with
           success := true
           message := "Successfully deleted snapshot " ++ snapshotId },
         [.deleteSnapshot snapshotId])
    | .error e =>
        ({ result with message := "Failed to delete snapshot: " ++ e },
         [.deleteSnapshot snapshotId])

/-- Embedding of deregister_ami (lines 283-298). -/
def deregister_ami (dryRun : Bool) (env : AwsEnv) (amiId : String)
    (result : ActionResult) : ActionResult × List ExtCall :=
  if dryRun then
    ({ result with
       success := true
       message := "[DRY RUN] Would deregister AMI " ++ amiId }, [])
  else
    match env.deregisterOutcome with
    | .ok _ =>
        ({ result with
           success := true
           message := "Successfully deregistered AMI " ++ amiId },
         [.deregisterImage amiId])
    | .error e =>
        ({ result with message := "Failed to deregister AMI: " ++ e },
         [.deregisterImage amiId])

/-- Embedding of delete_load_balancer (lines 300-315). -/
def delete_load_balancer (dryRun : Bool) (env : AwsEnv) (lbArn : String)
    (result : ActionResult) : ActionResult × List ExtCall :=
  if dryRun then
    ({ result with
       success := true
       message := "[DRY RUN] Would delete load balancer " ++ lbArn }, [])
  else
    match env.deleteLbOutcome with
    | .ok _ =>
        ({ result with
           success := true
           message := "Successfully deleted load balancer " ++ lbArn },
         [.deleteLoadBalancer lbArn])
    | .error e =>
        ({ result with message := "Failed to delete load balancer: " ++ e },
         [.deleteLoadBalancer lbArn])

/-- A pending cleanup action as read from the actions table. -/
structure CleanupAction where
  action_id : String
  resource_id : String
  resource_type : String
  action_type : String
  estimated_savings : ℚ
  deriving DecidableEq, Repr

/-- Embedding of the dispatch of execute_cleanup_action (lines 94-145):
nested comparisons on resource_type and action_type; a resource_type
with no branch is marked skipped with a message, while a known
resource_type with an unknown action_type leaves the result dict
untouched. -/
def execute_cleanup_action (dryRun : Bool) (env : AwsEnv)
    (action : CleanupAction) : ActionResult × List ExtCall :=
  let result : ActionResult :=
    { action_id := action.action_id
      resource_id := action.resource_id
      resource_type := action.resource_type
      action_type := action.action_type
      success := false
      skipped := false
      message := ""
      savings := action.estimated_savings }
  if action.resource_type = "ec2_instance" then
    if action.action_type = "stop" then
      stop_ec2_instance dryRun env action.resource_id result
    else if action.action_type = "terminate" then
      terminate_ec2_instance dryRun env action.resource_id result
    else (result, [])
  else if action.resource_type = "ebs_volume" then
    if action.action_type = "snapshot_and_delete" then
      snapshot_and_delete_volume dryRun env action.resource_id result
    else if action.action_type = "delete" then
      delete_volume dryRun env action.resource_id result
    else (result, [])
  else if action.resource_type = "elastic_ip" then
    if action.action_type = "release" then
      release_elastic_ip dryRun env action.resource_id result
    else (result, [])
  else if action.resource_type = "snapshot" then
    if action.action_type = "delete" then
      delete_snapshot dryRun env action.resource_id result
    else (result, [])
  else if action.resource_type = "ami" then
    if action.action_type = "deregister" then
      deregister_ami dryRun env action.resource_id result
    else (result, [])
  else if action.resource_type = "load_balancer" then
    if action.action_type = "delete" then
      delete_load_balancer dryRun env action.resource_id result
    else (result, [])
  else
    ({ result with
       skipped := true
       message := "Unsupported resource type: " ++ action.resource_type }, [])

/-- Status written by update_action_status (lines 321-323): completed if
success, else failed, overridden to skipped when the skipped flag is set. -/
def statusOf (result : ActionResult) : String :=
  let status := if result.success then "completed" else "failed"
  if result.skipped then "skipped" else status

/-- Split a character list at every hyphen, the semantics of the Python
split on a one-character separator. -/
def splitDash : List Char → List (List Char)
  | [] => [[]]
  | c :: cs =>
    if c = '-' then [] :: splitDash cs
    else
      match splitDash cs with
      | [] => [[c]]
      | p :: ps => (c :: p) :: ps

/-- Embedding of the scheduled_date parse in update_action_status
(lines 326-327): the first three hyphen-delimited parts of the id,
rejoined with hyphens. -/
def scheduledDateOf (action_id : String) : String :=
  String.intercalate "-"
    (((splitDash action_id.toList).map (fun l => String.mk l)).take 3)

/-- The attributes of an action record that update_action_status writes. -/
structure StoredRecord where
  status : String
  executed_at : String
  result_message : String
  deriving DecidableEq, Repr

/-- The actions table, keyed by (action_id, scheduled_date). -/
def ActionStore : Type := String × String → Option StoredRecord

/-- Embedding of update_action_status (lines 317-341): an upsert of
status, executed_at and result_message at the parsed key; executed_at is
set to the current time of the call. -/
def update_action_status (store : ActionStore) (action_id : String)
    (result : ActionResult) (now : String) : ActionStore :=
  fun k =>
    if k = (action_id, scheduledDateOf action_id) then
      some { status := statusOf result
             executed_at := now
             result_message := result.message }
    else store k

/-- The (resource_type, action_type) pairs that the dispatch of
execute_cleanup_action routes to a per-action function. -/
def dispatchablePairs : List (String × String) :=
  [("ec2_instance", "stop"), ("ec2_instance", "terminate"),
   ("ebs_volume", "snapshot_and_delete"), ("ebs_volume", "delete"),
   ("elastic_ip", "release"), ("snapshot", "delete"),
   ("ami", "deregister"), ("load_balancer", "delete")]

/-- The resource_type values that have a branch in the dispatch of
execute_cleanup_action; any other resource_type falls into the final
else branch. -/
def supportedResourceTypes : List String :=
  ["ec2_instance", "ebs_volume", "elastic_ip", "snapshot", "ami",
   "load_balancer"]

end CleanupExecutor

namespace CostAnalyzer

/-- One entry of the daily_costs list built by get_cost_data
(src/lambda/cost-analyzer/lambda_function.py, lines 70-79). -/
structure DailyCost where
  date : String
  cost : ℚ
  deriving DecidableEq, Repr

/-- An anomaly dict as built in detect_anomalies (lines 105-111). -/
structure Anomaly where
  date : String
  cost : ℚ
  baseline : ℚ
  deviation_percentage : ℚ
  severity : String
  deriving DecidableEq, Repr

/-- The one runtime failure the detector can raise: a Python
ZeroDivisionError from dividing by a zero denominator. -/
inductive DetectError where
  | zeroDivision
  deriving DecidableEq, Repr

/-- Embedding of the loop over the last seven days (lines 101-112): the
deviation of each day is computed by dividing by baseline_avg, so a zero
baseline raises on the first day of the window; otherwise a day whose
absolute deviation exceeds the threshold yields one anomaly, graded high
above 50 and medium otherwise. -/
def evalWindow (threshold baseline_avg : ℚ) :
    List DailyCost → Except DetectError (List Anomaly)
  | [] => .ok []
  | d :: rest =>
    if baseline_avg = 0 then .error .zeroDivision
    else
      let deviation := ((d.cost - baseline_avg) / baseline_avg) * 100
      let here : List Anomaly :=
        if threshold < |deviation| then
          [{ date := d.date
             cost := d.cost
             baseline := baseline_avg
             deviation_percentage := deviation
             severity := if 50 < |deviation| then "high" else "medium" }]
        else []
      match evalWindow threshold baseline_avg rest with
      | .error e => .error e
      | .ok l => .ok (here ++ l)

/-- Embedding of detect_anomalies (lines 87-117): series shorter than 7
are a no-op; otherwise the baseline window is every day except the last
7 and its mean is its sum divided by its length, which raises when the
window is empty (a series of length exactly 7); the last 7 days are then
checked against the threshold. -/
def detect_anomalies (threshold : ℚ) (daily_costs : List DailyCost) :
    Except DetectError (List Anomaly) :=
  if daily_costs.length < 7 then .ok []
  else
    let baseline_costs := (daily_costs.take (daily_costs.length - 7)).map (fun d => d.cost)
    if baseline_costs.length = 0 then .error .zeroDivision
    else
      let baseline_avg := baseline_costs.sum / (baseline_costs.length : ℚ)
      evalWindow threshold baseline_avg (daily_costs.drop (daily_costs.length - 7))

end CostAnalyzer

namespace ResourceScanner

/-- Python round to even integer (round-half-to-even), on exact
rationals. -/
def roundHalfEven (x : ℚ) : ℤ :=
  let f := ⌊x⌋
  let frac := x - f
  if frac < 1 / 2 then f
  else if 1 / 2 < frac then f + 1
  else if f % 2 = 0 then f else f + 1

/-- Python round(x, 2). -/
def round2 (x : ℚ) : ℚ := (roundHalfEven (x * 100) : ℚ) / 100

/-- Embedding of get_cpu_utilization (src/lambda/resource-scanner/
lambda_function.py, lines 340-363): the CloudWatch response is either a
raised error or a list of datapoint averages; an error or an empty
datapoint list falls through to return 0. -/
def get_cpu_utilization (resp : Except String (List ℚ)) : ℚ :=
  match resp with
  | .error _ => 0
  | .ok [] => 0
  | .ok (d :: ds) => round2 ((d :: ds).sum / ((d :: ds).length : ℚ))

/-- Embedding of get_rds_connections (lines 365-388), same fallback
shape as get_cpu_utilization. -/
def get_rds_connections (resp : Except String (List ℚ)) : ℚ :=
  match resp with
  | .error _ => 0
  | .ok [] => 0
  | .ok (d :: ds) => round2 ((d :: ds).sum / ((d :: ds).length : ℚ))

/-- The fields of a described EC2 instance that the scan reads.  The
describe_instances call filters server side on instance-state-name =
running, so the scan input list holds running instances only. -/
structure Ec2Instance where
  instance_id : String
  instance_type : String
  tags : List (String × String)
  deriving DecidableEq, Repr

/-- The skip test of scan_idle_ec2_instances (lines 73-75): a DoNotStop
tag or Environment=Production exempts the instance. -/
def exemptFromStop (tags : List (String × String)) : Bool :=
  (tags.lookup "DoNotStop").isSome || (tags.lookup "Environment" == some "Production")

/-- Embedding of the classification loop of scan_idle_ec2_instances
(lines 68-96): non-exempt instances whose 7-day CPU average is below 5
are flagged idle; cpuOf gives each instance id its CloudWatch response. -/
def scan_idle_ec2_instances (cpuOf : String → Except String (List ℚ)) :
    List Ec2Instance → List String
  | [] => []
  | i :: rest =>
    let tail := scan_idle_ec2_instances cpuOf rest
    if exemptFromStop i.tags then tail
    else if get_cpu_utilization (cpuOf i.instance_id) < 5 then i.instance_id :: tail
    else tail

/-- The fields of a described RDS instance that the scan reads. -/
structure RdsInstance where
  db_id : String
  instance_class : String
  engine : String
  deriving DecidableEq, Repr

/-- Embedding of the classification loop of scan_idle_rds_instances
(lines 181-215): a database whose 7-day connection average is below 1 is
flagged idle; there is no tag exemption on this path. -/
def scan_idle_rds_instances (connOf : String → Except String (List ℚ)) :
    List RdsInstance → List String
  | [] => []
  | d :: rest =>
    let tail := scan_idle_rds_instances connOf rest
    if get_rds_connections (connOf d.db_id) < 1 then d.db_id :: tail
    else tail

end ResourceScanner

namespace TagEnforcer

/-- An entry of the invalid_tags list built by check_resource_compliance
(src/lambda/tag-enforcer/lambda_function.py, lines 228-241): either an
out-of-allowed-values dict or a failed-pattern dict. -/
inductive InvalidTag where
  | badValue (key value : String) (allowed : List String)
  | badMatch (key value pattern : String)
  deriving DecidableEq, Repr

/-- A required-tag rule as loaded from the tag policies: a key, a list
of allowed values (empty means any value), and an optional regex
pattern. -/
structure TagRule where
  key : String
  values : List String
  pattern : Option String
  deriving DecidableEq, Repr

/-- Embedding of the rule loop of check_resource_compliance
(lines 217-241), building the missing_tags and invalid_tags lists in
rule order; reMatch models re.match on a pattern and a value. -/
def checkRules (reMatch : String → String → Bool)
    (tags : List (String × String)) :
    List TagRule → List String × List InvalidTag
  | [] => ([], [])
  | r :: rest =>
    match tags.lookup r.key with
    | none =>
        (r.key :: (checkRules reMatch tags rest).1, (checkRules reMatch tags rest).2)
    | some v =>
        let fromValues : List InvalidTag :=
          if r.values ≠ [] ∧ v ∉ r.values then [.badValue r.key v r.values] else []
        let fromPattern : List InvalidTag :=
          match r.pattern with
          | some p => if reMatch p v = false then [.badMatch r.key v p] else []
          | none => []
        ((checkRules reMatch tags rest).1,
         fromValues ++ fromPattern ++ (checkRules reMatch tags rest).2)

/-- The verdict returned by check_resource_compliance (lines 243-247). -/
structure ComplianceVerdict where
  compliant : Bool
  missing_tags : List String
  invalid_tags : List InvalidTag
  deriving DecidableEq, Repr

/-- Embedding of check_resource_compliance (lines 212-247): compliant
exactly when both accumulated lists are empty. -/
def check_resource_compliance (reMatch : String → String → Bool)
    (tags : List (String × String)) (required_tags : List TagRule) :
    ComplianceVerdict :=
  { compliant := ((checkRules reMatch tags required_tags).1.length == 0)
      && ((checkRules reMatch tags required_tags).2.length == 0)
    missing_tags := (checkRules reMatch tags required_tags).1
    invalid_tags := (checkRules reMatch tags required_tags).2 }

end TagEnforcer

namespace ReportGenerator

/-- An item of the idle-resources store as written by the scanner
(src/lambda/resource-scanner/lambda_function.py, lines 442-451) and read
back by the report generator. -/
structure StoreItem where
  resource_id : String
  resource_type : String
  metadata : List (String × String)
  deriving DecidableEq, Repr

/-- One value of the resources_by_type dict of
generate_idle_resources_summary (src/lambda/report-generator/
lambda_function.py, lines 166-182). -/
structure TypeGroup where
  count : Nat
  resources : List (String × List (String × String))
  deriving DecidableEq, Repr

/-- One iteration of the grouping loop (lines 169-182): a new
resource_type key is appended at the end, an existing one is updated in
place, mirroring Python dict insertion order. -/
def updateGroup : List (String × TypeGroup) → StoreItem → List (String × TypeGroup)
  | [], item =>
      [(item.resource_type,
        { count := 1, resources := [(item.resource_id, item.metadata)] })]
  | (k, g) :: rest, item =>
    if k = item.resource_type then
      (k, { count := g.count + 1
            resources := g.resources ++ [(item.resource_id, item.metadata)] }) :: rest
    else (k, g) :: updateGroup rest item

/-- The summary dict returned by generate_idle_resources_summary
(lines 184-188). -/
structure IdleSummary where
  total_idle_resources : Nat
  by_type : List (String × TypeGroup)
  total_savings : ℚ
  deriving DecidableEq, Repr

/-- Embedding of generate_idle_resources_summary (lines 153-192):
total_savings is initialised to 0 and the loop over the stored items
only ever updates the per-type grouping, so the returned total_savings
is round(0, 2). -/
def generate_idle_resources_summary (items : List StoreItem) : IdleSummary :=
  let resources_by_type := items.foldl updateGroup []
  let total_savings : ℚ := 0
  { total_idle_resources := (resources_by_type.map (fun p => p.2.count)).sum
    by_type := resources_by_type
    total_savings := ResourceScanner.round2 total_savings }

end ReportGenerator

namespace CleanupExecutor

/-- The stored message of a simulated action carries the dry-run marker
in front. -/
def hasSimMarker (s : String) : Prop := ∃ rest, s = "[DRY RUN]" ++ rest

/-- A sample environment in which every external call succeeds and the
instance has one attached EBS volume. -/
def okEnv : AwsEnv :=
  { stopOutcome := .ok ()
    describeOutcome := .ok ["vol-1"]
    createSnapshotOutcome := fun _ => .ok "snap-1"
    waitOutcome := fun _ => .ok ()
    terminateOutcome := .ok ()
    deleteVolumeOutcome := .ok ()
    releaseOutcome := .ok ()
    deleteSnapshotOutcome := .ok ()
    deregisterOutcome := .ok ()
    deleteLbOutcome := .ok () }

/-- A sample pending action. -/
def sampleAction : CleanupAction :=
  { action_id := "2024-06-01-abc123"
    resource_id := "i-0123456789"
    resource_type := "ec2_instance"
    action_type := "stop"
    estimated_savings := 9 }

/-- The key of an action record in the actions table. -/
def keyOf (action_id : String) : String × String :=
  (action_id, scheduledDateOf action_id)

/-- A call is a wait on snapshot completion. -/
def ExtCall.isWait : ExtCall → Bool
  | .waitSnapshotCompleted _ => true
  | _ => false

/-- Environment in which create_snapshot raises. -/
def failSnapEnv : AwsEnv :=
  { okEnv with createSnapshotOutcome := fun _ => .error "RequestLimitExceeded" }

/-- Environment in which the snapshot completes creation but the wait on
its completion raises. -/
def failWaitEnv : AwsEnv :=
  { okEnv with waitOutcome := fun _ => .error "Waiter SnapshotCompleted failed" }

/-- A pending snapshot_and_delete action on a block volume. -/
def volAction : CleanupAction :=
  { action_id := "2024-06-02-def456"
    resource_id := "vol-7"
    resource_type := "ebs_volume"
    action_type := "snapshot_and_delete"
    estimated_savings := 3 }

/-- A pending action whose resource_type is in the dispatch table but
whose action_type has no branch there. -/
def c4Action : CleanupAction :=
  { action_id := "2024-06-03-ghi789"
    resource_id := "i-555"
    resource_type := "ec2_instance"
    action_type := "delete"
    estimated_savings := 2 }

/-- A terminal result of a completed action, as passed to
update_action_status. -/
def doneResult : ActionResult :=
  { action_id := "2024-06-01-abc123"
    resource_id := "i-0123456789"
    resource_type := "ec2_instance"
    action_type := "stop"
    success := true
    skipped := false
    message := "Successfully stopped instance i-0123456789"
    savings := 9 }

/-- The empty actions table. -/
def emptyStore : ActionStore := fun _ => none

end CleanupExecutor

/-- Decidable equality of Except results, used to evaluate the embedded
fallible functions on concrete inputs. -/
instance {e a : Type} [DecidableEq e] [DecidableEq a] :
    DecidableEq (Except e a) := fun x y =>
  match x, y with
  | .ok u, .ok v =>
    if h : u = v then .isTrue (by rw [h]) else .isFalse (by simp [h])
  | .error u, .error v =>
    if h : u = v then .isTrue (by rw [h]) else .isFalse (by simp [h])
  | .ok _, .error _ => .isFalse (by simp)
  | .error _, .ok _ => .isFalse (by simp)

namespace CostAnalyzer

/-- A flat daily series of the given length, every day costing c. -/
def flatSeries (n : Nat) (c : ℚ) : List DailyCost :=
  List.replicate n { date := "day", cost := c }

end CostAnalyzer

namespace ResourceScanner

/-- A running, unexempted instance. -/
def plainInstance : Ec2Instance :=
  { instance_id := "i-42"
    instance_type := "t3.medium"
    tags := [("Name", "worker")] }

/-- A database instance. -/
def plainDb : RdsInstance :=
  { db_id := "db-42"
    instance_class := "db.t3.micro"
    engine := "postgres" }

/-- A CloudWatch stub that raises for every query. -/
def erroringMetrics : String → Except String (List ℚ) :=
  fun _ => .error "AccessDenied"

end ResourceScanner

namespace TagEnforcer

/-- A regex matcher stub that accepts everything. -/
def matchAll : String → String → Bool := fun _ _ => true

/-- Sample required-tag rules: Environment restricted to three values,
Owner free-form. -/
def sampleRules : List TagRule :=
  [{ key := "Environment", values := ["Production", "Staging", "Development"],
     pattern := none },
   { key := "Owner", values := [], pattern := none }]

/-- Sample resource tags with Environment present but out of the allowed
values, and Owner absent. -/
def sampleTags : List (String × String) := [("Environment", "Sandbox")]

end TagEnforcer

open CleanupExecutor in
theorem simMarker_append (mid s : String) :
    hasSimMarker (("[DRY RUN]" ++ mid) ++ s) :=
  ⟨mid ++ s, String.append_assoc _ _ _⟩

open CleanupExecutor in
/-- C1: every pending action whose (resource_type, action_type) pair is
in the dispatch table, executed with dry-run enabled, issues no external
call at all (in particular no mutating call), reports success = true,
and the message stored for it by update_action_status carries the
simulation marker in front, with status completed. -/
theorem c1_dry_run_simulated_success (env : AwsEnv) (a : CleanupAction)
    (store : ActionStore) (now : String)
    (h : (a.resource_type, a.action_type) ∈ dispatchablePairs) :
    (execute_cleanup_action true env a).1.success = true ∧
    (execute_cleanup_action true env a).2 = [] ∧
    hasSimMarker (execute_cleanup_action true env a).1.message ∧
    update_action_status store a.action_id (execute_cleanup_action true env a).1 now
        (keyOf a.action_id) =
      some { status := "completed", executed_at := now,
             result_message := (execute_cleanup_action true env a).1.message } := by
  simp only [dispatchablePairs, List.mem_cons, List.not_mem_nil, or_false] at h
  rcases h with h | h | h | h | h | h | h | h <;>
    · rw [Prod.mk.injEq] at h
      obtain ⟨h1, h2⟩ := h
      refine ⟨?_, ?_, ?_, ?_⟩ <;>
        simp [execute_cleanup_action, h1, h2, stop_ec2_instance,
              terminate_ec2_instance, snapshot_and_delete_volume, delete_volume,
              release_elastic_ip, delete_snapshot, deregister_ami,
              delete_load_balancer, update_action_status, statusOf, keyOf] <;>
        exact simMarker_append _ _

open CleanupExecutor in
/-- Witness for C1 at a concrete stop action in a concrete environment. -/
theorem c1_dry_run_simulated_success_witness :
    (execute_cleanup_action true okEnv sampleAction).1.success = true ∧
    (execute_cleanup_action true okEnv sampleAction).2 = [] ∧
    hasSimMarker (execute_cleanup_action true okEnv sampleAction).1.message ∧
    update_action_status (fun _ => none) sampleAction.action_id
        (execute_cleanup_action true okEnv sampleAction).1 "2024-06-01T10:00:00"
        (keyOf sampleAction.action_id) =
      some { status := "completed", executed_at := "2024-06-01T10:00:00",
             result_message := (execute_cleanup_action true okEnv sampleAction).1.message } :=
  c1_dry_run_simulated_success okEnv sampleAction (fun _ => none)
    "2024-06-01T10:00:00" (by decide)

open CleanupExecutor in
/-- C2: for a live snapshot_and_delete action on a block volume, if the
snapshot creation or the wait on its completion fails, the volume delete
call is never issued and the recorded terminal status is failed. -/
theorem c2_snapshot_failure_blocks_delete (env : AwsEnv) (a : CleanupAction)
    (store : ActionStore) (now : String)
    (h1 : a.resource_type = "ebs_volume")
    (h2 : a.action_type = "snapshot_and_delete")
    (h3 : (∃ e, env.createSnapshotOutcome a.resource_id = .error e) ∨
          (∃ sid e, env.createSnapshotOutcome a.resource_id = .ok sid ∧
            env.waitOutcome sid = .error e)) :
    ExtCall.deleteVolume a.resource_id ∉ (execute_cleanup_action false env a).2 ∧
    statusOf (execute_cleanup_action false env a).1 = "failed" ∧
    update_action_status store a.action_id (execute_cleanup_action false env a).1 now
        (keyOf a.action_id) =
      some { status := "failed", executed_at := now,
             result_message := (execute_cleanup_action false env a).1.message } := by
  rcases h3 with ⟨e, he⟩ | ⟨sid, e, hok, herr⟩
  · refine ⟨?_, ?_, ?_⟩ <;>
      simp [execute_cleanup_action, h1, h2, snapshot_and_delete_volume, he,
            statusOf, update_action_status, keyOf]
  · refine ⟨?_, ?_, ?_⟩ <;>
      simp [execute_cleanup_action, h1, h2, snapshot_and_delete_volume, hok,
            herr, statusOf, update_action_status, keyOf]

open CleanupExecutor in
/-- Witness for C2: snapshot creation raises for a concrete volume. -/
theorem c2_snapshot_failure_blocks_delete_witness :
    ExtCall.deleteVolume volAction.resource_id ∉
      (execute_cleanup_action false failSnapEnv volAction).2 ∧
    statusOf (execute_cleanup_action false failSnapEnv volAction).1 = "failed" ∧
    update_action_status emptyStore volAction.action_id
        (execute_cleanup_action false failSnapEnv volAction).1 "2024-06-02T09:00:00"
        (keyOf volAction.action_id) =
      some { status := "failed", executed_at := "2024-06-02T09:00:00",
             result_message := (execute_cleanup_action false failSnapEnv volAction).1.message } :=
  c2_snapshot_failure_blocks_delete failSnapEnv volAction emptyStore
    "2024-06-02T09:00:00" rfl rfl (.inl ⟨"RequestLimitExceeded", rfl⟩)

open CleanupExecutor in
/-- C3: the claim that a live terminate awaits snapshot completion
before terminating fails on the code: for an instance with one attached
volume and every call succeeding, the issued trace is describe, then
create_snapshot, then terminate_instances, with no wait call anywhere,
so the terminate is issued without any snapshot having been awaited. -/
theorem c3_terminate_issued_without_wait :
    (execute_cleanup_action false okEnv
        { sampleAction with action_type := "terminate" }).2 =
      [ExtCall.describeInstances "i-0123456789", ExtCall.createSnapshot "vol-1",
       ExtCall.terminateInstances "i-0123456789"] ∧
    ((execute_cleanup_action false okEnv
        { sampleAction with action_type := "terminate" }).2.filter ExtCall.isWait) = [] ∧
    ExtCall.terminateInstances "i-0123456789" ∈
      (execute_cleanup_action false okEnv
        { sampleAction with action_type := "terminate" }).2 := by
  decide

open CleanupExecutor in
/-- C4: the claim that an unmatched (resource_type, action_type) pair is
recorded as skipped fails on the code: a supported resource_type with an
unsupported action_type falls through every inner branch, leaving the
result unmarked, and update_action_status then records it as failed with
an empty message. -/
theorem c4_unmatched_action_type_recorded_failed_counterexample :
    (execute_cleanup_action false okEnv c4Action).1.skipped = false ∧
    (execute_cleanup_action false okEnv c4Action).1.success = false ∧
    (execute_cleanup_action false okEnv c4Action).1.message = "" ∧
    statusOf (execute_cleanup_action false okEnv c4Action).1 = "failed" ∧
    update_action_status emptyStore c4Action.action_id
        (execute_cleanup_action false okEnv c4Action).1 "2024-06-03T08:00:00"
        (keyOf c4Action.action_id) =
      some { status := "failed", executed_at := "2024-06-03T08:00:00",
             result_message := "" } := by
  decide

open CleanupExecutor in
/-- The stop action never touches the skipped flag of the result dict. -/
theorem stop_skipped_preserved (d : Bool) (env : AwsEnv) (x : String)
    (r : ActionResult) : (stop_ec2_instance d env x r).1.skipped = r.skipped := by
  unfold stop_ec2_instance
  split
  · rfl
  · split <;> rfl

open CleanupExecutor in
/-- The terminate action never touches the skipped flag. -/
theorem terminate_skipped_preserved (d : Bool) (env : AwsEnv) (x : String)
    (r : ActionResult) :
    (terminate_ec2_instance d env x r).1.skipped = r.skipped := by
  unfold terminate_ec2_instance
  split
  · rfl
  · split
    · rfl
    · split
      · rfl
      · split <;> rfl

open CleanupExecutor in
/-- The snapshot_and_delete action never touches the skipped flag. -/
theorem snapshot_delete_skipped_preserved (d : Bool) (env : AwsEnv)
    (x : String) (r : ActionResult) :
    (snapshot_and_delete_volume d env x r).1.skipped = r.skipped := by
  unfold snapshot_and_delete_volume
  split
  · rfl
  · split
    · rfl
    · split
      · rfl
      · split <;> rfl

open CleanupExecutor in
/-- The volume delete action never touches the skipped flag. -/
theorem delete_volume_skipped_preserved (d : Bool) (env : AwsEnv) (x : String)
    (r : ActionResult) : (delete_volume d env x r).1.skipped = r.skipped := by
  unfold delete_volume
  split
  · rfl
  · split <;> rfl

open CleanupExecutor in
/-- The Elastic IP release action never touches the skipped flag. -/
theorem release_skipped_preserved (d : Bool) (env : AwsEnv) (x : String)
    (r : ActionResult) : (release_elastic_ip d env x r).1.skipped = r.skipped := by
  unfold release_elastic_ip
  split
  · rfl
  · split <;> rfl

open CleanupExecutor in
/-- The snapshot delete action never touches the skipped flag. -/
theorem delete_snapshot_skipped_preserved (d : Bool) (env : AwsEnv)
    (x : String) (r : ActionResult) :
    (delete_snapshot d env x r).1.skipped = r.skipped := by
  unfold delete_snapshot
  split
  · rfl
  · split <;> rfl

open CleanupExecutor in
/-- The AMI deregister action never touches the skipped flag. -/
theorem deregister_skipped_preserved (d : Bool) (env : AwsEnv) (x : String)
    (r : ActionResult) : (deregister_ami d env x r).1.skipped = r.skipped := by
  unfold deregister_ami
  split
  · rfl
  · split <;> rfl

open CleanupExecutor in
/-- The load balancer delete action never touches the skipped flag. -/
theorem lb_delete_skipped_preserved (d : Bool) (env : AwsEnv) (x : String)
    (r : ActionResult) :
    (delete_load_balancer d env x r).1.skipped = r.skipped := by
  unfold delete_load_balancer
  split
  · rfl
  · split <;> rfl

open CleanupExecutor in
/-- C4 amended: an action is recorded skipped exactly when its
resource_type has no branch in the dispatch, and then with the
explanatory unsupported-resource message; an action whose resource_type
is supported but whose action_type has no branch there keeps
success = false, skipped = false and an empty message, so it is recorded
failed. -/
theorem c4_amended_dispatch_statuses (dryRun : Bool) (env : AwsEnv)
    (a : CleanupAction) :
    (a.resource_type ∉ supportedResourceTypes →
       (execute_cleanup_action dryRun env a).1.skipped = true ∧
       statusOf (execute_cleanup_action dryRun env a).1 = "skipped" ∧
       (execute_cleanup_action dryRun env a).1.message =
         "Unsupported resource type: " ++ a.resource_type) ∧
    (a.resource_type ∈ supportedResourceTypes →
       (a.resource_type, a.action_type) ∉ dispatchablePairs →
       (execute_cleanup_action dryRun env a).1.success = false ∧
       (execute_cleanup_action dryRun env a).1.skipped = false ∧
       (execute_cleanup_action dryRun env a).1.message = "" ∧
       statusOf (execute_cleanup_action dryRun env a).1 = "failed") ∧
    ((execute_cleanup_action dryRun env a).1.skipped = true ↔
       a.resource_type ∉ supportedResourceTypes) := by
  have hskip : a.resource_type ∉ supportedResourceTypes →
      (execute_cleanup_action dryRun env a).1.skipped = true ∧
      statusOf (execute_cleanup_action dryRun env a).1 = "skipped" ∧
      (execute_cleanup_action dryRun env a).1.message =
        "Unsupported resource type: " ++ a.resource_type := by
    intro h1
    simp only [supportedResourceTypes, List.mem_cons, List.not_mem_nil,
      or_false, not_or] at h1
    obtain ⟨n1, n2, n3, n4, n5, n6⟩ := h1
    refine ⟨?_, ?_, ?_⟩ <;>
      simp [execute_cleanup_action, n1, n2, n3, n4, n5, n6, statusOf]
  have hnoskip : a.resource_type ∈ supportedResourceTypes →
      (execute_cleanup_action dryRun env a).1.skipped = false := by
    intro hmem
    simp only [supportedResourceTypes, List.mem_cons, List.not_mem_nil,
      or_false] at hmem
    rcases hmem with h | h | h | h | h | h
    · by_cases hs : a.action_type = "stop"
      · simp [execute_cleanup_action, h, hs, stop_skipped_preserved]
      · by_cases ht : a.action_type = "terminate"
        · simp [execute_cleanup_action, h, hs, ht, terminate_skipped_preserved]
        · simp [execute_cleanup_action, h, hs, ht]
    · by_cases hs : a.action_type = "snapshot_and_delete"
      · simp [execute_cleanup_action, h, hs, snapshot_delete_skipped_preserved]
      · by_cases ht : a.action_type = "delete"
        · simp [execute_cleanup_action, h, hs, ht, delete_volume_skipped_preserved]
        · simp [execute_cleanup_action, h, hs, ht]
    · by_cases hs : a.action_type = "release"
      · simp [execute_cleanup_action, h, hs, release_skipped_preserved]
      · simp [execute_cleanup_action, h, hs]
    · by_cases hs : a.action_type = "delete"
      · simp [execute_cleanup_action, h, hs, delete_snapshot_skipped_preserved]
      · simp [execute_cleanup_action, h, hs]
    · by_cases hs : a.action_type = "deregister"
      · simp [execute_cleanup_action, h, hs, deregister_skipped_preserved]
      · simp [execute_cleanup_action, h, hs]
    · by_cases hs : a.action_type = "delete"
      · simp [execute_cleanup_action, h, hs, lb_delete_skipped_preserved]
      · simp [execute_cleanup_action, h, hs]
  refine ⟨hskip, ?_, ?_⟩
  · intro hmem hpair
    simp only [supportedResourceTypes, List.mem_cons, List.not_mem_nil,
      or_false] at hmem
    rcases hmem with h | h | h | h | h | h
    · rw [h] at hpair
      simp [dispatchablePairs, not_or] at hpair
      obtain ⟨hs, ht⟩ := hpair
      refine ⟨?_, ?_, ?_, ?_⟩ <;>
        simp [execute_cleanup_action, h, hs, ht, statusOf]
    · rw [h] at hpair
      simp [dispatchablePairs, not_or] at hpair
      obtain ⟨hs, ht⟩ := hpair
      refine ⟨?_, ?_, ?_, ?_⟩ <;>
        simp [execute_cleanup_action, h, hs, ht, statusOf]
    · rw [h] at hpair
      simp [dispatchablePairs, not_or] at hpair
      refine ⟨?_, ?_, ?_, ?_⟩ <;>
        simp [execute_cleanup_action, h, hpair, statusOf]
    · rw [h] at hpair
      simp [dispatchablePairs, not_or] at hpair
      refine ⟨?_, ?_, ?_, ?_⟩ <;>
        simp [execute_cleanup_action, h, hpair, statusOf]
    · rw [h] at hpair
      simp [dispatchablePairs, not_or] at hpair
      refine ⟨?_, ?_, ?_, ?_⟩ <;>
        simp [execute_cleanup_action, h, hpair, statusOf]
    · rw [h] at hpair
      simp [dispatchablePairs, not_or] at hpair
      refine ⟨?_, ?_, ?_, ?_⟩ <;>
        simp [execute_cleanup_action, h, hpair, statusOf]
  · constructor
    · intro hsk hmem
      have h0 := hnoskip hmem
      rw [h0] at hsk
      exact Bool.noConfusion hsk
    · intro hmem
      exact (hskip hmem).1

open CleanupExecutor in
/-- Witness for the amended C4 statement: a concrete unknown
resource_type is recorded skipped with the explanatory message, the
concrete pair (ec2_instance, delete) is recorded failed with an empty
message, and the exclusivity instance for the latter action. -/
theorem c4_amended_dispatch_statuses_witness :
    ((execute_cleanup_action false okEnv
        { sampleAction with resource_type := "nat_gateway" }).1.skipped = true ∧
     statusOf (execute_cleanup_action false okEnv
        { sampleAction with resource_type := "nat_gateway" }).1 = "skipped" ∧
     (execute_cleanup_action false okEnv
        { sampleAction with resource_type := "nat_gateway" }).1.message =
       "Unsupported resource type: " ++ "nat_gateway") ∧
    ((execute_cleanup_action false okEnv c4Action).1.success = false ∧
     (execute_cleanup_action false okEnv c4Action).1.skipped = false ∧
     (execute_cleanup_action false okEnv c4Action).1.message = "" ∧
     statusOf (execute_cleanup_action false okEnv c4Action).1 = "failed") ∧
    ((execute_cleanup_action false okEnv c4Action).1.skipped = true ↔
       c4Action.resource_type ∉ supportedResourceTypes) :=
  ⟨(c4_amended_dispatch_statuses false okEnv
      { sampleAction with resource_type := "nat_gateway" }).1 (by decide),
   (c4_amended_dispatch_statuses false okEnv c4Action).2.1 (by decide) (by decide),
   (c4_amended_dispatch_statuses false okEnv c4Action).2.2⟩

open CleanupExecutor in
/-- C6: the claim that a repeated status update with the same terminal
outcome leaves the stored (status, executed_at, result_message) record
identical fails on the code: executed_at is set to the current time of
each call, so two calls at different times store different records. -/
theorem c6_double_update_not_identical_counterexample :
    update_action_status
        (update_action_status emptyStore doneResult.action_id doneResult
          "2024-06-01T10:00:00")
        doneResult.action_id doneResult "2024-06-01T11:00:00"
        (keyOf doneResult.action_id) ≠
      update_action_status emptyStore doneResult.action_id doneResult
        "2024-06-01T10:00:00" (keyOf doneResult.action_id) := by
  decide

open CleanupExecutor in
/-- C6 amended: re-invoking the status update with the same outcome
stores the same status and result_message both times, but executed_at is
overwritten with the time of each call, so the full record is unchanged
only when both calls carry the same current time. -/
theorem c6_amended_same_outcome_updates (store : ActionStore)
    (action_id : String) (result : ActionResult) (t1 t2 : String) :
    update_action_status
        (update_action_status store action_id result t1)
        action_id result t2 (keyOf action_id) =
      some { status := statusOf result, executed_at := t2,
             result_message := result.message } ∧
    update_action_status store action_id result t1 (keyOf action_id) =
      some { status := statusOf result, executed_at := t1,
             result_message := result.message } := by
  refine ⟨?_, ?_⟩ <;> simp [update_action_status, keyOf]

open CleanupExecutor in
/-- Witness for the amended C6 statement at a concrete action and two
concrete call times. -/
theorem c6_amended_same_outcome_updates_witness :
    update_action_status
        (update_action_status emptyStore doneResult.action_id doneResult
          "2024-06-01T10:00:00")
        doneResult.action_id doneResult "2024-06-01T11:00:00"
        (keyOf doneResult.action_id) =
      some { status := statusOf doneResult, executed_at := "2024-06-01T11:00:00",
             result_message := doneResult.message } ∧
    update_action_status emptyStore doneResult.action_id doneResult
        "2024-06-01T10:00:00" (keyOf doneResult.action_id) =
      some { status := statusOf doneResult, executed_at := "2024-06-01T10:00:00",
             result_message := doneResult.message } :=
  c6_amended_same_outcome_updates emptyStore doneResult.action_id doneResult
    "2024-06-01T10:00:00" "2024-06-01T11:00:00"

open CostAnalyzer in
/-- C5: the claim that a zero baseline mean never divides by zero fails
on the code: detect_anomalies has no zero-baseline guard, so on a series
whose baseline window averages 0 the deviation division raises, both
when the evaluation day costs 0 (eight zero days) and when it costs a
nonzero amount (a zero baseline day followed by seven days of cost 5). -/
theorem c5_zero_baseline_divides_by_zero :
    detect_anomalies 25 (flatSeries 8 0) = .error .zeroDivision ∧
    detect_anomalies 25 (flatSeries 1 0 ++ flatSeries 7 5) = .error .zeroDivision := by
  constructor
  · simp only [flatSeries, List.replicate, detect_anomalies]
    norm_num [evalWindow]
  · simp only [flatSeries, List.replicate, detect_anomalies, List.cons_append,
      List.nil_append]
    norm_num [evalWindow]

open CostAnalyzer in
/-- C10: a series of length exactly 7 passes the length guard (which
only rejects series shorter than 7) with an empty baseline window, so
its mean is a division by zero and the detector raises; series shorter
than 7 are a no-op, and from length 8 the baseline window is nonempty so
this particular division has a nonzero denominator. -/
theorem c10_length_seven_empty_baseline (threshold : ℚ) (s : List DailyCost) :
    (s.length = 7 → detect_anomalies threshold s = .error .zeroDivision) ∧
    (s.length < 7 → detect_anomalies threshold s = .ok []) ∧
    (8 ≤ s.length →
      ((s.take (s.length - 7)).map (fun d => d.cost)).length ≠ 0) := by
  refine ⟨?_, ?_, ?_⟩
  · intro h
    simp [detect_anomalies, h]
  · intro h
    simp [detect_anomalies, h]
  · intro h
    simp only [List.length_map, List.length_take]
    omega

open CostAnalyzer in
/-- Witness for C10 at a concrete flat series of exactly 7 days. -/
theorem c10_length_seven_empty_baseline_witness :
    detect_anomalies 25 (flatSeries 7 3) = .error .zeroDivision :=
  (c10_length_seven_empty_baseline 25 (flatSeries 7 3)).1 (by decide)

open ResourceScanner in
/-- A CloudWatch query that raises or returns no datapoints yields a CPU
average of 0. -/
theorem cpu_zero_of_missing (resp : Except String (List ℚ))
    (h : (∃ e, resp = .error e) ∨ resp = .ok []) :
    get_cpu_utilization resp = 0 := by
  rcases h with ⟨e, rfl⟩ | rfl <;> rfl

open ResourceScanner in
/-- A CloudWatch query that raises or returns no datapoints yields a
connection average of 0. -/
theorem conn_zero_of_missing (resp : Except String (List ℚ))
    (h : (∃ e, resp = .error e) ∨ resp = .ok []) :
    get_rds_connections resp = 0 := by
  rcases h with ⟨e, rfl⟩ | rfl <;> rfl

open ResourceScanner in
/-- A listed instance that is not exempt and whose CPU average is below
the threshold is flagged by the EC2 scan. -/
theorem mem_scan_ec2 (cpuOf : String → Except String (List ℚ))
    (i : Ec2Instance) :
    ∀ l : List Ec2Instance, i ∈ l → exemptFromStop i.tags = false →
      get_cpu_utilization (cpuOf i.instance_id) < 5 →
      i.instance_id ∈ scan_idle_ec2_instances cpuOf l := by
  intro l
  induction l with
  | nil => simp
  | cons a rest ih =>
    intro hmem hex hcpu
    rcases List.mem_cons.mp hmem with rfl | hmem2
    · simp [scan_idle_ec2_instances, hex, hcpu]
    · have htail := ih hmem2 hex hcpu
      simp only [scan_idle_ec2_instances]
      split
      · exact htail
      · split
        · exact List.mem_cons_of_mem _ htail
        · exact htail

open ResourceScanner in
/-- A listed database whose connection average is below 1 is flagged by
the RDS scan. -/
theorem mem_scan_rds (connOf : String → Except String (List ℚ))
    (d : RdsInstance) :
    ∀ l : List RdsInstance, d ∈ l →
      get_rds_connections (connOf d.db_id) < 1 →
      d.db_id ∈ scan_idle_rds_instances connOf l := by
  intro l
  induction l with
  | nil => simp
  | cons a rest ih =>
    intro hmem hconn
    rcases List.mem_cons.mp hmem with rfl | hmem2
    · simp [scan_idle_rds_instances, hconn]
    · have htail := ih hmem2 hconn
      simp only [scan_idle_rds_instances]
      split
      · exact List.mem_cons_of_mem _ htail
      · exact htail

open ResourceScanner in
/-- C7: a missing or errored utilization sample is read as an average of
0, and consequently a running, non-exempt instance with missing or
errored CPU metrics is flagged idle by the EC2 scan, and a database with
missing or errored connection metrics is flagged idle by the RDS scan. -/
theorem c7_missing_metrics_classified_idle
    (resp : Except String (List ℚ))
    (instances : List Ec2Instance) (cpuOf : String → Except String (List ℚ))
    (i : Ec2Instance) (dbs : List RdsInstance)
    (connOf : String → Except String (List ℚ)) (d : RdsInstance)
    (hresp : (∃ e, resp = .error e) ∨ resp = .ok [])
    (hi : i ∈ instances) (hex : exemptFromStop i.tags = false)
    (hcpu : (∃ e, cpuOf i.instance_id = .error e) ∨ cpuOf i.instance_id = .ok [])
    (hd : d ∈ dbs)
    (hconn : (∃ e, connOf d.db_id = .error e) ∨ connOf d.db_id = .ok []) :
    get_cpu_utilization resp = 0 ∧ get_rds_connections resp = 0 ∧
    i.instance_id ∈ scan_idle_ec2_instances cpuOf instances ∧
    d.db_id ∈ scan_idle_rds_instances connOf dbs := by
  refine ⟨cpu_zero_of_missing resp hresp, conn_zero_of_missing resp hresp, ?_, ?_⟩
  · have h0 := cpu_zero_of_missing _ hcpu
    exact mem_scan_ec2 cpuOf i instances hi hex (by rw [h0]; norm_num)
  · have h0 := conn_zero_of_missing _ hconn
    exact mem_scan_rds connOf d dbs hd (by rw [h0]; norm_num)

open ResourceScanner in
/-- Witness for C7: a metrics stub that raises on every query makes the
scans flag a concrete running instance and a concrete database. -/
theorem c7_missing_metrics_classified_idle_witness :
    get_cpu_utilization (.error "AccessDenied") = 0 ∧
    get_rds_connections (.error "AccessDenied") = 0 ∧
    plainInstance.instance_id ∈
      scan_idle_ec2_instances erroringMetrics [plainInstance] ∧
    plainDb.db_id ∈ scan_idle_rds_instances erroringMetrics [plainDb] :=
  c7_missing_metrics_classified_idle (.error "AccessDenied") [plainInstance]
    erroringMetrics plainInstance [plainDb] erroringMetrics plainDb
    (.inl ⟨"AccessDenied", rfl⟩) (List.mem_singleton.mpr rfl) rfl
    (.inl ⟨"AccessDenied", rfl⟩) (List.mem_singleton.mpr rfl)
    (.inl ⟨"AccessDenied", rfl⟩)

open TagEnforcer in
/-- A key collected into missing_tags is always absent from the tag
mapping. -/
theorem missing_sound (reMatch : String → String → Bool)
    (tags : List (String × String)) :
    ∀ rules (k : String), k ∈ (checkRules reMatch tags rules).1 →
      tags.lookup k = none := by
  intro rules
  induction rules with
  | nil => intro k hk; simp [checkRules] at hk
  | cons r rest ih =>
    intro k hk
    rcases hlk : tags.lookup r.key with _ | v
    · simp only [checkRules, hlk, List.mem_cons] at hk
      rcases hk with rfl | hk
      · exact hlk
      · exact ih k hk
    · simp only [checkRules, hlk] at hk
      exact ih k hk

open TagEnforcer in
/-- An absent required key is collected into missing_tags. -/
theorem missing_complete (reMatch : String → String → Bool)
    (tags : List (String × String)) :
    ∀ rules (r : TagRule), r ∈ rules → tags.lookup r.key = none →
      r.key ∈ (checkRules reMatch tags rules).1 := by
  intro rules
  induction rules with
  | nil => intro r hr _; simp at hr
  | cons a rest ih =>
    intro r hr hln
    rcases List.mem_cons.mp hr with rfl | hr2
    · simp [checkRules, hln]
    · rcases hlk : tags.lookup a.key with _ | w
      · simp only [checkRules, hlk, List.mem_cons]
        exact Or.inr (ih r hr2 hln)
      · simp only [checkRules, hlk]
        exact ih r hr2 hln

open TagEnforcer in
/-- A present key whose value is outside a non-empty allowed-values list
yields the corresponding badValue entry in invalid_tags. -/
theorem invalid_complete (reMatch : String → String → Bool)
    (tags : List (String × String)) :
    ∀ rules (r : TagRule) (v : String), r ∈ rules →
      tags.lookup r.key = some v → r.values ≠ [] → v ∉ r.values →
      InvalidTag.badValue r.key v r.values ∈ (checkRules reMatch tags rules).2 := by
  intro rules
  induction rules with
  | nil => intro r v hr _ _ _; simp at hr
  | cons a rest ih =>
    intro r v hr hlk hne hnv
    rcases List.mem_cons.mp hr with rfl | hr2
    · simp [checkRules, hlk, hne, hnv]
    · rcases hlk2 : tags.lookup a.key with _ | w
      · simp only [checkRules, hlk2]
        exact ih r v hr2 hlk hne hnv
      · simp only [checkRules, hlk2]
        exact List.mem_append_right _ (ih r v hr2 hlk hne hnv)

open TagEnforcer in
/-- C8: the compliance check puts every absent required key into
missing_tags and renders the resource non-compliant; a key present with
a value outside the non-empty allowed values of its rule yields a
badValue entry for that rule in invalid_tags and no missing_tags entry
for that key; and with zero required-tag rules every tag mapping is
compliant. -/
theorem c8_tag_compliance (reMatch : String → String → Bool)
    (tags : List (String × String)) :
    (∀ rules (r : TagRule), r ∈ rules → tags.lookup r.key = none →
       r.key ∈ (check_resource_compliance reMatch tags rules).missing_tags ∧
       (check_resource_compliance reMatch tags rules).compliant = false) ∧
    (∀ rules (r : TagRule) (v : String), r ∈ rules →
       tags.lookup r.key = some v → r.values ≠ [] → v ∉ r.values →
       InvalidTag.badValue r.key v r.values ∈
         (check_resource_compliance reMatch tags rules).invalid_tags ∧
       r.key ∉ (check_resource_compliance reMatch tags rules).missing_tags) ∧
    (check_resource_compliance reMatch tags []).compliant = true := by
  refine ⟨?_, ?_, rfl⟩
  · intro rules r hr hln
    have hm := missing_complete reMatch tags rules r hr hln
    refine ⟨hm, ?_⟩
    have h1 : ((checkRules reMatch tags rules).1.length == 0) = false := by
      simp only [beq_eq_false_iff_ne, ne_eq, List.length_eq_zero]
      exact List.ne_nil_of_mem hm
    simp [check_resource_compliance, h1]
  · intro rules r v hr hlk hne hnv
    refine ⟨invalid_complete reMatch tags rules r v hr hlk hne hnv, ?_⟩
    intro hk
    have := missing_sound reMatch tags rules r.key hk
    rw [this] at hlk
    exact Option.noConfusion hlk

open TagEnforcer in
/-- Witness for C8 on concrete rules: Owner is absent, Environment is
present with a value outside the allowed list, and the empty rule list
is vacuously compliant. -/
theorem c8_tag_compliance_witness :
    ("Owner" ∈ (check_resource_compliance matchAll sampleTags sampleRules).missing_tags ∧
      (check_resource_compliance matchAll sampleTags sampleRules).compliant = false) ∧
    (InvalidTag.badValue "Environment" "Sandbox" ["Production", "Staging", "Development"] ∈
        (check_resource_compliance matchAll sampleTags sampleRules).invalid_tags ∧
      "Environment" ∉ (check_resource_compliance matchAll sampleTags sampleRules).missing_tags) ∧
    (check_resource_compliance matchAll sampleTags []).compliant = true :=
  ⟨(c8_tag_compliance matchAll sampleTags).1 sampleRules
      { key := "Owner", values := [], pattern := none } (by decide) rfl,
   (c8_tag_compliance matchAll sampleTags).2.1 sampleRules
      { key := "Environment", values := ["Production", "Staging", "Development"],
        pattern := none } "Sandbox" (by decide) rfl (by decide) (by decide),
   (c8_tag_compliance matchAll sampleTags).2.2⟩

open ReportGenerator in
/-- C9: whatever the contents of the idle-resources store, the idle
summary reports total_savings = 0, because the summation variable is
initialised to 0 and the loop over the stored findings never adds any
per-resource cost to it. -/
theorem c9_idle_summary_total_savings_zero (items : List StoreItem) :
    (generate_idle_resources_summary items).total_savings = 0 := by
  simp only [generate_idle_resources_summary]
  norm_num [ResourceScanner.round2, ResourceScanner.roundHalfEven]
